import Mathlib

/-!
The rclone backend of restic: launcher, handshake, shutdown, configuration.

A shallow embedding of `internal/backend/rclone/backend.go` and
`internal/backend/rclone/config.go`.

The Go code is effectful: it creates pipes, starts a process, sends a request
and waits for the process.  The embedding passes an explicit `World` through
every function.  The world records the calls made to the operating system and
to collaborating packages as a trace of events, the number of pipes created so
far, and the pipe ends that are open.  The outcome of each such call (success
or an error) is read from an environment `Env`; every outcome may depend on the
world, hence on the whole history.

Go strings are modelled by Lean strings.  The only string operations of the
source are a test for the ASCII prefix `rclone:`, a slice that removes these
seven bytes, a comparison with the empty string and a formatting with `%v`, so
that characters and bytes agree wherever the source looks at them.
-/

set_option linter.dupNamespace false

namespace Rclone

/-! ## Data model -/

/-- A Go `error` value, identified with its message. -/
structure Error where
  msg : String
deriving DecidableEq, Repr

/-- The two ends of an operating-system pipe. -/
inductive PipeEnd where
  | read
  | write
deriving DecidableEq, Repr

/-- An `*os.File`: the standard error stream of the parent (`os.Stderr`), or one
end of the pipe with the given identity. -/
inductive File where
  | Stderr
  | pipe (id : Nat) (e : PipeEnd)
deriving DecidableEq, Repr

/-- An `*os.Process`, the handle of a started child. -/
structure Process where
  Pid : Nat
deriving DecidableEq, Repr

/-- An `*exec.Cmd`.  `Args` holds the command line with the command itself as
its first element, as `exec.Command` builds it.  A field that Go leaves `nil`
is `none`. -/
structure Cmd where
  Path : String
  Args : List String
  Stdin : Option File
  Stdout : Option File
  Stderr : Option File
  Process : Option Process
deriving DecidableEq, Repr

/-- The connection over the two pipes: `stdin` is read from, `stdout` is
written to, `cmd` is the command of the child.  The fields are those that `run`
fills in. -/
structure StdioConn where
  stdin : File
  stdout : File
  cmd : Cmd
deriving DecidableEq, Repr

/-- The callback `func() error` that `startForeground` returns, identified by
the process it moves to the background. -/
structure Bg where
  proc : Process
deriving DecidableEq, Repr

/-- The part of `*tls.Config` that a dial hook could look at. -/
structure TLSConfig where
  ServerName : String
  InsecureSkipVerify : Bool
deriving DecidableEq, Repr

/-- An `*http.Response`: the numeric status code and the status line text. -/
structure Response where
  StatusCode : Int
  Status : String
deriving DecidableEq, Repr

/-- A parsed `*url.URL`. -/
structure URL where
  Scheme : String
  Host : String
  Path : String
deriving DecidableEq, Repr

/-- The configuration `rest.Config` of the protocol client: the fields that
`New` sets. -/
structure RestConfig where
  Connections : Nat
  URL : URL
deriving DecidableEq, Repr

/-- The protocol client `*rest.Backend`, as a handle given out by `rest.Open`. -/
structure RestBackend where
  handle : Nat
deriving DecidableEq, Repr

/-- A call to the operating system or to a collaborating package. -/
inductive Event where
  | splitShellArgs (s : String)
  | command (name : String) (args : List String)
  | pipe (id : Nat)
  | pipeFailed
  | startForeground (cmd : Cmd)
  | background (bg : Bg)
  | kill (p : Process)
  | get (url : String)
  | restOpen (cfg : RestConfig)
  | closeIdleConnections
  | wait (cmd : Cmd)
  | debugLog (network address : String)
deriving DecidableEq, Repr

/-- The state outside the program: the calls made so far, the number of pipes
created so far, and the pipe ends that are open. -/
structure World where
  trace : List Event
  pipes : Nat
  openFiles : List File
deriving DecidableEq, Repr

/-- Record one call. -/
def World.log (w : World) (e : Event) : World :=
  { w with trace := w.trace ++ [e] }

/-- An `*http2.Transport`: the two fields that `New` sets.  The dial hook is a
Go closure; it runs in a world since it writes a debug message. -/
structure Transport where
  AllowHTTP : Bool
  DialTLS : String → String → Option TLSConfig → World → Except Error StdioConn × World

/-- Backend is used to access data stored somewhere via rclone. -/
structure Backend where
  Backend : RestBackend
  tr : Transport
  cmd : Cmd

/-- Config contains all configuration necessary to start rclone. -/
structure Config where
  Command : String
  Remote : String
deriving DecidableEq, Repr

/-- What a Go function that can also dereference a nil pointer ends with: its
value, its error, or a run-time panic. -/
inductive Result (α : Type) where
  | ok (a : α)
  | error (e : Error)
  | panic

/-- The outcomes of the calls that leave the package.  `SplitShellArgs`
(package sftp), `startForeground` (another file of this package) and `Open`
(package rest) are collaborators whose code is not among the sources; `Pipe`,
`Get`, `Parse` and `Wait` stand for `os.Pipe`, `http.Client.Get`, `url.Parse`
and `exec.Cmd.Wait`.  For `Pipe` and `Wait`, `none` is the nil error.

`Path` is the path that `exec.Command` stores for a command name: the file
that `exec.LookPath` finds for a bare name, and the name itself when the name
holds a path separator or nothing is found.  `Open` is the protocol client
that `rest.Open` constructs.  `Parse` is consulted for every string but the
base URL of `New`. -/
structure Env where
  SplitShellArgs : String → Except Error (String × List String)
  Path : String → String
  Pipe : World → Option Error
  startForeground : Cmd → World → Except Error (Process × Bg)
  Get : Transport → String → World → Except Error Response
  Parse : String → Except Error URL
  Open : RestConfig → Transport → World → RestBackend
  Wait : Cmd → World → Option Error

/-! ## Calls that leave the package -/

/-- The function `sftp.SplitShellArgs`: the call is recorded, the environment
gives the result. -/
def SplitShellArgs (env : Env) (s : String) (w : World) :
    Except Error (String × List String) × World :=
  (env.SplitShellArgs s, w.log (.splitShellArgs s))

/-- The function `exec.Command`: a command that is not started, with no stream
set.  `Args` is the name followed by the arguments; `Path` is the name as the
operating system resolves it, which for a bare name such as `rclone` is the
file found on the search path. -/
def Command (env : Env) (name : String) (args : List String) : Cmd :=
  { Path := env.Path name, Args := name :: args,
    Stdin := none, Stdout := none, Stderr := none, Process := none }

/-- The function `os.Pipe`: on success a new pipe, whose read end and write
end are both open; on failure nothing is created. -/
def Pipe (env : Env) (w : World) : Except Error (File × File) × World :=
  match env.Pipe w with
  | some err => (.error err, w.log .pipeFailed)
  | none =>
    let r := File.pipe w.pipes .read
    let wr := File.pipe w.pipes .write
    (.ok (r, wr),
      { trace := w.trace ++ [.pipe w.pipes],
        pipes := w.pipes + 1,
        openFiles := w.openFiles ++ [r, wr] })

/-- Modelled from the spec: `startForeground`, defined in another file of the
package that is not among the sources.  It starts the process of `cmd` and
returns the one-shot callback that moves the process to the background; when
starting fails it returns the error.  It does nothing else: the command keeps
the streams it was given, and no file is opened or closed. -/
def startForeground (env : Env) (cmd : Cmd) (w : World) :
    Except Error (Cmd × Bg) × World :=
  match env.startForeground cmd w with
  | .error err => (.error err, w.log (.startForeground cmd))
  | .ok (p, bg) => (.ok ({ cmd with Process := some p }, bg), w.log (.startForeground cmd))

/-- Calling the callback that `startForeground` returned.  Its error result is
dropped by every caller in the package, so that only the call is kept. -/
def Bg.call (bg : Bg) (w : World) : World :=
  w.log (.background bg)

/-- The method `os.Process.Kill`, its result dropped as the caller drops it. -/
def Process.Kill (p : Process) (w : World) : World :=
  w.log (.kill p)

/-- The method `http.Client.Get` of a client with transport `tr`: a GET
request.  (The comment above the call in `New` speaks of a HEAD request; the
call is `client.Get`.) -/
def Get (env : Env) (tr : Transport) (url : String) (w : World) :
    Except Error Response × World :=
  (env.Get tr url w, w.log (.get url))

/-- The URL that `url.Parse` gives for `http://localhost/`. -/
def localhost : URL :=
  { Scheme := "http", Host := "localhost", Path := "/" }

/-- The function `url.Parse`.  The one string that `New` parses is the
constant `http://localhost/`, a well-formed URL with scheme `http`, host
`localhost` and path `/`; what any other string parses to is left to the
environment. -/
def Parse (env : Env) (s : String) : Except Error URL :=
  if s = "http://localhost/" then .ok localhost else env.Parse s

/-- Modelled from the spec: `rest.Open`, of package rest, which is not among
the sources.  It constructs the protocol client bound to the base URL and to
the bounded size of the connection pool of its configuration, over the given
transport.  The one failure kept is that of a pool without any connection. -/
def restOpen (env : Env) (cfg : RestConfig) (tr : Transport) (w : World) :
    Except Error RestBackend × World :=
  if cfg.Connections = 0 then
    (.error { msg := "must be a positive number" }, w.log (.restOpen cfg))
  else
    (.ok (env.Open cfg tr w), w.log (.restOpen cfg))

/-- The method `http2.Transport.CloseIdleConnections`. -/
def Transport.CloseIdleConnections (_tr : Transport) (w : World) : World :=
  w.log .closeIdleConnections

/-- The method `exec.Cmd.Wait`. -/
def Cmd.Wait (env : Env) (cmd : Cmd) (w : World) : Option Error × World :=
  (env.Wait cmd w, w.log (.wait cmd))

/-- The function `errors.Errorf` with the format
`invalid HTTP response from rclone: %v` and a string argument. -/
def Errorf (status : String) : Error :=
  { msg := "invalid HTTP response from rclone: " ++ status }

/-- The constant `http.StatusOK`. -/
def StatusOK : Int := 200

/-! ## backend.go -/

/-- The function `run` starts command with args and initializes the StdioConn. -/
def run (env : Env) (command : String) (args : List String) (w : World) :
    Except Error (StdioConn × Cmd × Bg) × World :=
  let cmd := Command env command args
  let w := w.log (.command command args)
  let cmd := { cmd with Stderr := some File.Stderr }
  match Pipe env w with
  | (.error err, w) => (.error err, w)
  | (.ok (r, stdin), w) =>
    match Pipe env w with
    | (.error err, w) => (.error err, w)
    | (.ok (stdout, wr), w) =>
      let cmd := { cmd with Stdin := some r, Stdout := some wr }
      match startForeground env cmd w with
      | (.error err, w) => (.error err, w)
      | (.ok (cmd, bg), w) =>
        let c : StdioConn := { stdin := stdout, stdout := stdin, cmd := cmd }
        (.ok (c, cmd, bg), w)

/-- The transport that `New` builds around the connection `conn`: plain HTTP is
allowed, and the dial hook writes a debug message and returns `conn`. -/
def newTransport (conn : StdioConn) : Transport :=
  { AllowHTTP := true,
    DialTLS := fun network address _cfg w =>
      (.ok conn, w.log (.debugLog network address)) }

/-- The command line that `New` resolves from the configuration. -/
def resolve (env : Env) (cfg : Config) (w : World) :
    Except Error (String × List String) × World :=
  let arg0 := "rclone"
  let args := ["serve", "restic", "--stdin", cfg.Remote]
  if cfg.Command ≠ "" then SplitShellArgs env cfg.Command w
  else (.ok (arg0, args), w)

/-- The function `New` initializes a Backend and starts the process. -/
def New (env : Env) (cfg : Config) (w : World) : Result Backend × World :=
  match resolve env cfg w with
  | (.error err, w) => (.error err, w)
  | (.ok (arg0, args), w) =>
    match run env arg0 args w with
    | (.error err, w) => (.error err, w)
    | (.ok (conn, cmd, bg), w) =>
      let tr := newTransport conn
      match Get env tr "http://localhost/" w with
      | (.error err, w) => (.error err, w)
      | (.ok res, w) =>
        if res.StatusCode ≠ StatusOK then
          let w := bg.call w
          match cmd.Process with
          | none => (.panic, w)
          | some p =>
            let w := p.Kill w
            (.error (Errorf res.Status), w)
        else
          let w := bg.call w
          match Parse env "http://localhost/" with
          | .error err => (.error err, w)
          | .ok url =>
            let restConfig : RestConfig := { Connections := 20, URL := url }
            match restOpen env restConfig tr w with
            | (.error err, w) => (.error err, w)
            | (.ok restBackend, w) =>
              (.ok { Backend := restBackend, tr := tr, cmd := cmd }, w)

/-- The function `Open` starts an rclone process with the given config. -/
def Open (env : Env) (cfg : Config) (w : World) : Result Backend × World :=
  New env cfg w

/-- The method `Close` terminates the backend. -/
def Backend.Close (env : Env) (be : Rclone.Backend) (w : World) : Option Error × World :=
  let w := be.tr.CloseIdleConnections w
  be.cmd.Wait env w

/-! ## config.go -/

/-- The function `NewConfig` returns a new Config with the default values
filled in. -/
def NewConfig : Config :=
  { Command := "", Remote := "" }

/-- The function `strings.HasPrefix`: `s` is at least as long as `p` and starts
with it. -/
def HasPrefix (s p : String) : Bool :=
  decide (p.length ≤ s.length) && (s.data.take p.length == p.data)

/-- The function `ParseConfig` parses the string s and extracts the remote
server URL. -/
def ParseConfig (s : String) : Except Error Config :=
  if !HasPrefix s "rclone:" then
    .error { msg := "invalid rclone backend specification" }
  else
    let s := String.mk (s.data.drop 7)
    let cfg := NewConfig
    let cfg := { cfg with Remote := s }
    .ok cfg

/-! ## Concrete environments, used to evaluate the definitions -/

/-- The world before anything happened. -/
def World.initial : World :=
  { trace := [], pipes := 0, openFiles := [] }

/-- An environment in which every call succeeds and the child answers the
handshake with the given status.  The splitter knows two command lines and
rejects every other one; the program `rclone` is found in `/usr/bin`. -/
def Env.answering (code : Int) (status : String) : Env :=
  { SplitShellArgs := fun s =>
      if s = "ssh host rclone serve restic --stdin" then
        .ok ("ssh", ["host", "rclone", "serve", "restic", "--stdin"])
      else if s = "/opt/rclone" then .ok ("/opt/rclone", [])
      else .error { msg := "unable to parse command" },
    Path := fun name => if name = "rclone" then "/usr/bin/rclone" else name,
    Pipe := fun _ => none,
    startForeground := fun _ _ => .ok ({ Pid := 4711 }, { proc := { Pid := 4711 } }),
    Get := fun _ _ _ => .ok { StatusCode := code, Status := status },
    Parse := fun _ => .error { msg := "parse: invalid URL" },
    Open := fun _ _ _ => { handle := 1 },
    Wait := fun _ _ => none }

/-- Every call succeeds and the handshake is answered with `200 OK`. -/
def Env.healthy : Env :=
  Env.answering 200 "200 OK"

/-- The creation of the first pipe fails. -/
def Env.firstPipeFails : Env :=
  { Env.healthy with Pipe := fun _ => some { msg := "pipe: too many open files" } }

/-- The creation of the second pipe fails: one pipe exists already. -/
def Env.secondPipeFails : Env :=
  { Env.healthy with
    Pipe := fun w => if w.pipes = 0 then none else some { msg := "pipe: too many open files" } }

/-- The binary does not exist: starting the process fails. -/
def Env.startFails : Env :=
  { Env.healthy with
    startForeground := fun _ _ => .error { msg := "cmd.Start: executable file not found" } }

/-- The handshake request fails in the transport. -/
def Env.getFails : Env :=
  { Env.healthy with Get := fun _ _ _ => .error { msg := "connection reset" } }

/-- The child exits with a non-zero status. -/
def Env.exitsNonZero : Env :=
  { Env.healthy with Wait := fun _ _ => some { msg := "exit status 1" } }

/-- The configuration of the test suite: the default command and a local
remote. -/
def Config.test : Config :=
  { NewConfig with Remote := "local:/tmp/x" }

end Rclone


namespace Rclone

/-! ## The launcher `run` -/

/-- The command that `run` hands to `startForeground`. -/
def childCmd (env : Env) (command : String) (args : List String) (w : World) : Cmd :=
  { Path := env.Path command, Args := command :: args,
    Stdin := some (.pipe w.pipes .read),
    Stdout := some (.pipe (w.pipes + 1) .write),
    Stderr := some .Stderr,
    Process := none }

/-- The world in which `run` creates its first pipe. -/
def afterCommand (command : String) (args : List String) (w : World) : World :=
  w.log (.command command args)

/-- The world in which `run` creates its second pipe. -/
def afterFirstPipe (command : String) (args : List String) (w : World) : World :=
  { trace := w.trace ++ [.command command args, .pipe w.pipes],
    pipes := w.pipes + 1,
    openFiles := w.openFiles ++ [.pipe w.pipes .read, .pipe w.pipes .write] }

/-- The world in which `run` starts the process. -/
def afterSecondPipe (command : String) (args : List String) (w : World) : World :=
  { trace := w.trace ++ [.command command args, .pipe w.pipes, .pipe (w.pipes + 1)],
    pipes := w.pipes + 1 + 1,
    openFiles := w.openFiles ++
      [.pipe w.pipes .read, .pipe w.pipes .write,
       .pipe (w.pipes + 1) .read, .pipe (w.pipes + 1) .write] }

/-- The world that a successful `run` leaves. -/
def afterStart (env : Env) (command : String) (args : List String) (w : World) : World :=
  (afterSecondPipe command args w).log (.startForeground (childCmd env command args w))

/-- The results of a series of calls to the dial hook of `tr`, one call for
each triple of arguments, each call in the world that the call before left. -/
def dialAll (tr : Transport) :
    List (String × String × Option TLSConfig) → World → List (Except Error StdioConn) × World
  | [], w => ([], w)
  | (network, address, cfg) :: calls, w =>
    let (r, w) := tr.DialTLS network address cfg w
    let (rs, w) := dialAll tr calls w
    (r :: rs, w)

/-- The arguments of the default command line for the remote of `Config.test`. -/
def testArgs : List String :=
  ["serve", "restic", "--stdin", "local:/tmp/x"]

/-- The process that the concrete environments start. -/
def Process.test : Process :=
  { Pid := 4711 }

/-- The callback that the concrete environments return. -/
def Bg.test : Bg :=
  { proc := Process.test }

/-- The command of the child once `run` has started it from the initial world
with the default command line. -/
def Cmd.test : Cmd :=
  { childCmd Env.healthy "rclone" testArgs World.initial with Process := some Process.test }

/-- The connection that `run` returns from the initial world. -/
def StdioConn.test : StdioConn :=
  { stdin := .pipe 1 .read, stdout := .pipe 0 .write, cmd := Cmd.test }

/-- The world that `run` leaves when started from the initial world with the
default command line. -/
def World.started : World :=
  afterStart Env.healthy "rclone" testArgs World.initial

/-- A configuration with a command line of its own. -/
def Config.custom : Config :=
  { Command := "ssh host rclone serve restic --stdin", Remote := "b2:bucket" }

/-- A configuration whose command line the splitter rejects. -/
def Config.unbalanced : Config :=
  { Command := "rclone 'serve", Remote := "b2:bucket" }

/-- The calls made between the world `w` and the later world `w'`. -/
def World.since (w' w : World) : List Event :=
  w'.trace.drop w.trace.length

/-- The calls that `New` makes, from the world `w`, up to and including a
successful start of the command line `arg0 args`: the splitter if the
configuration has a command line of its own, then the command, two pipes and
the start. -/
def launchEvents (env : Env) (cfg : Config) (arg0 : String) (args : List String)
    (w : World) : List Event :=
  (if cfg.Command = "" then [] else [.splitShellArgs cfg.Command]) ++
    [.command arg0 args, .pipe w.pipes, .pipe (w.pipes + 1),
     .startForeground (childCmd env arg0 args w)]

theorem run_firstPipe_error {env : Env} {command : String} {args : List String} {w : World}
    {err : Error} (h : env.Pipe (afterCommand command args w) = some err) :
    run env command args w = (.error err, (afterCommand command args w).log .pipeFailed) := by
  simp [run, Pipe, afterCommand, World.log] at h ⊢
  simp [h]

theorem run_secondPipe_error {env : Env} {command : String} {args : List String} {w : World}
    {err : Error} (h1 : env.Pipe (afterCommand command args w) = none)
    (h2 : env.Pipe (afterFirstPipe command args w) = some err) :
    run env command args w = (.error err, (afterFirstPipe command args w).log .pipeFailed) := by
  simp [run, Pipe, afterCommand, afterFirstPipe, World.log] at h1 h2 ⊢
  simp [h1, h2]

theorem run_start_error {env : Env} {command : String} {args : List String} {w : World}
    {err : Error} (h1 : env.Pipe (afterCommand command args w) = none)
    (h2 : env.Pipe (afterFirstPipe command args w) = none)
    (h3 : env.startForeground (childCmd env command args w) (afterSecondPipe command args w)
      = .error err) :
    run env command args w = (.error err, afterStart env command args w) := by
  simp [run, Pipe, startForeground, Command, afterCommand, afterFirstPipe, afterSecondPipe,
    afterStart, childCmd, World.log] at h1 h2 h3 ⊢
  simp [h1, h2, h3]

theorem run_start_ok {env : Env} {command : String} {args : List String} {w : World}
    {p : Process} {bg : Bg} (h1 : env.Pipe (afterCommand command args w) = none)
    (h2 : env.Pipe (afterFirstPipe command args w) = none)
    (h3 : env.startForeground (childCmd env command args w) (afterSecondPipe command args w)
      = .ok (p, bg)) :
    run env command args w =
      (.ok ({ stdin := .pipe (w.pipes + 1) .read, stdout := .pipe w.pipes .write,
              cmd := { childCmd env command args w with Process := some p } },
            { childCmd env command args w with Process := some p }, bg),
        afterStart env command args w) := by
  simp [run, Pipe, startForeground, Command, afterCommand, afterFirstPipe, afterSecondPipe,
    afterStart, childCmd, World.log] at h1 h2 h3 ⊢
  simp [h1, h2, h3]

/-- The four ways in which `run` can go: the first pipe fails, the second pipe
fails, starting fails, or all three steps succeed. -/
theorem run_cases (env : Env) (command : String) (args : List String) (w : World) :
    (∃ err, env.Pipe (afterCommand command args w) = some err ∧
      run env command args w = (.error err, (afterCommand command args w).log .pipeFailed)) ∨
    (∃ err, env.Pipe (afterCommand command args w) = none ∧
      env.Pipe (afterFirstPipe command args w) = some err ∧
      run env command args w = (.error err, (afterFirstPipe command args w).log .pipeFailed)) ∨
    (∃ err, env.Pipe (afterCommand command args w) = none ∧
      env.Pipe (afterFirstPipe command args w) = none ∧
      env.startForeground (childCmd env command args w) (afterSecondPipe command args w)
        = .error err ∧
      run env command args w = (.error err, afterStart env command args w)) ∨
    (∃ p bg, env.Pipe (afterCommand command args w) = none ∧
      env.Pipe (afterFirstPipe command args w) = none ∧
      env.startForeground (childCmd env command args w) (afterSecondPipe command args w)
        = .ok (p, bg) ∧
      run env command args w =
        (.ok ({ stdin := .pipe (w.pipes + 1) .read, stdout := .pipe w.pipes .write,
                cmd := { childCmd env command args w with Process := some p } },
              { childCmd env command args w with Process := some p }, bg),
          afterStart env command args w)) := by
  cases h1 : env.Pipe (afterCommand command args w) with
  | some err => exact Or.inl ⟨err, rfl, run_firstPipe_error h1⟩
  | none =>
    cases h2 : env.Pipe (afterFirstPipe command args w) with
    | some err => exact Or.inr (Or.inl ⟨err, rfl, rfl, run_secondPipe_error h1 h2⟩)
    | none =>
      cases h3 : env.startForeground (childCmd env command args w)
          (afterSecondPipe command args w) with
      | error err =>
        exact Or.inr (Or.inr (Or.inl ⟨err, rfl, rfl, rfl, run_start_error h1 h2 h3⟩))
      | ok pb =>
        obtain ⟨p, bg⟩ := pb
        exact Or.inr (Or.inr (Or.inr ⟨p, bg, rfl, rfl, rfl, run_start_ok h1 h2 h3⟩))

/-- What a successful `run` returns and leaves behind. -/
theorem run_ok_inv {env : Env} {command : String} {args : List String} {w w' : World}
    {conn : StdioConn} {cmd : Cmd} {bg : Bg}
    (h : run env command args w = (.ok (conn, cmd, bg), w')) :
    ∃ p, env.Pipe (afterCommand command args w) = none ∧
      env.Pipe (afterFirstPipe command args w) = none ∧
      env.startForeground (childCmd env command args w) (afterSecondPipe command args w)
        = .ok (p, bg) ∧
      cmd = { childCmd env command args w with Process := some p } ∧
      conn = { stdin := .pipe (w.pipes + 1) .read, stdout := .pipe w.pipes .write,
               cmd := cmd } ∧
      w' = afterStart env command args w := by
  rcases run_cases env command args w with ⟨err, _, hr⟩ | ⟨err, _, _, hr⟩ |
    ⟨err, _, _, _, hr⟩ | ⟨p, bg', h1, h2, h3, hr⟩
  · rw [hr] at h; simp at h
  · rw [hr] at h; simp at h
  · rw [hr] at h; simp at h
  · rw [hr] at h
    simp only [Prod.mk.injEq, Except.ok.injEq] at h
    obtain ⟨⟨hc, hcmd, hbg⟩, hw⟩ := h
    subst hbg
    exact ⟨p, h1, h2, h3, hcmd.symm, by rw [← hc, ← hcmd], hw.symm⟩

/-- What a failed `run` leaves behind. -/
theorem run_error_inv {env : Env} {command : String} {args : List String} {w w' : World}
    {err : Error} (h : run env command args w = (.error err, w')) :
    (env.Pipe (afterCommand command args w) = some err ∧
      w' = (afterCommand command args w).log .pipeFailed) ∨
    (env.Pipe (afterCommand command args w) = none ∧
      env.Pipe (afterFirstPipe command args w) = some err ∧
      w' = (afterFirstPipe command args w).log .pipeFailed) ∨
    (env.Pipe (afterCommand command args w) = none ∧
      env.Pipe (afterFirstPipe command args w) = none ∧
      env.startForeground (childCmd env command args w) (afterSecondPipe command args w)
        = .error err ∧
      w' = afterStart env command args w) := by
  rcases run_cases env command args w with ⟨e, h1, hr⟩ | ⟨e, h1, h2, hr⟩ |
    ⟨e, h1, h2, h3, hr⟩ | ⟨p, bg', _, _, _, hr⟩
  · rw [hr] at h
    simp only [Prod.mk.injEq, Except.error.injEq] at h
    obtain ⟨he, hw⟩ := h
    subst he
    exact Or.inl ⟨h1, hw.symm⟩
  · rw [hr] at h
    simp only [Prod.mk.injEq, Except.error.injEq] at h
    obtain ⟨he, hw⟩ := h
    subst he
    exact Or.inr (Or.inl ⟨h1, h2, hw.symm⟩)
  · rw [hr] at h
    simp only [Prod.mk.injEq, Except.error.injEq] at h
    obtain ⟨he, hw⟩ := h
    subst he
    exact Or.inr (Or.inr ⟨h1, h2, h3, hw.symm⟩)
  · rw [hr] at h; simp at h

/-- C10: when `run` succeeds, two distinct pipes `p` and `q` were created, and
nothing else was opened; the standard input of the child is the read end of `p`
and the connection writes to the write end of `p`; the standard output of the
child is the write end of `q` and the connection reads from the read end of `q`;
the standard error of the child is that of the parent; the command of the
connection is the command that was started with these streams, and it holds
the handle of the started process. -/
theorem run_wires_two_pipes (env : Env) (command : String) (args : List String)
    (w w' : World) (conn : StdioConn) (cmd : Cmd) (bg : Bg)
    (h : run env command args w = (.ok (conn, cmd, bg), w')) :
    ∃ p q : Nat, p ≠ q ∧
      w'.trace = w.trace ++ [.command command args, .pipe p, .pipe q,
        .startForeground { cmd with Process := none }] ∧
      w'.openFiles = w.openFiles ++
        [.pipe p .read, .pipe p .write, .pipe q .read, .pipe q .write] ∧
      cmd.Stdin = some (.pipe p .read) ∧ conn.stdout = .pipe p .write ∧
      cmd.Stdout = some (.pipe q .write) ∧ conn.stdin = .pipe q .read ∧
      cmd.Stderr = some .Stderr ∧
      conn.cmd = cmd ∧
      cmd.Args = command :: args ∧
      ∃ proc, cmd.Process = some proc ∧
        env.startForeground { cmd with Process := none } (afterSecondPipe command args w)
          = .ok (proc, bg) := by
  obtain ⟨proc, _, _, h3, hcmd, hconn, hw⟩ := run_ok_inv h
  subst hcmd hconn hw
  refine ⟨w.pipes, w.pipes + 1, by omega, ?_, rfl, rfl, rfl, rfl, rfl, rfl, rfl, rfl,
    proc, rfl, h3⟩
  simp [afterStart, afterSecondPipe, World.log, childCmd]

/-- An instance of C10: the launcher in the environment where every call
succeeds, started with the default command line. -/
theorem run_wires_two_pipes_witness :
    run Env.healthy "rclone" testArgs World.initial
      = (.ok (StdioConn.test, Cmd.test, Bg.test), World.started) ∧
    ∃ p q : Nat, p ≠ q ∧
      World.started.trace = World.initial.trace ++ [.command "rclone" testArgs, .pipe p, .pipe q,
        .startForeground { Cmd.test with Process := none }] ∧
      World.started.openFiles = World.initial.openFiles ++
        [.pipe p .read, .pipe p .write, .pipe q .read, .pipe q .write] ∧
      Cmd.test.Stdin = some (.pipe p .read) ∧ StdioConn.test.stdout = .pipe p .write ∧
      Cmd.test.Stdout = some (.pipe q .write) ∧ StdioConn.test.stdin = .pipe q .read ∧
      Cmd.test.Stderr = some .Stderr ∧
      StdioConn.test.cmd = Cmd.test ∧
      Cmd.test.Args = "rclone" :: testArgs ∧
      ∃ proc, Cmd.test.Process = some proc ∧
        Env.healthy.startForeground { Cmd.test with Process := none }
          (afterSecondPipe "rclone" testArgs World.initial) = .ok (proc, Bg.test) :=
  ⟨rfl, run_wires_two_pipes Env.healthy "rclone" testArgs World.initial World.started
    StdioConn.test Cmd.test Bg.test rfl⟩

/-- C4, refuted as stated: the second pipe cannot be created, `run` returns the
error, and both ends of the first pipe are still open. -/
theorem run_secondPipe_error_leaves_open :
    (run Env.secondPipeFails "rclone" testArgs World.initial).1
      = .error { msg := "pipe: too many open files" } ∧
    World.initial.openFiles = [] ∧
    (run Env.secondPipeFails "rclone" testArgs World.initial).2.openFiles
      = [.pipe 0 .read, .pipe 0 .write] :=
  ⟨rfl, rfl, rfl⟩

/-- C4, amended: a `run` that returns an error returns only that error, which
is the error of the step that failed, and it has closed nothing.  When the
first pipe could not be created no pipe end was opened; when the second pipe
could not be created the two ends of the first pipe are open; when the process
could not be started the four ends of both pipes are open. -/
theorem run_error_closes_nothing (env : Env) (command : String) (args : List String)
    (w w' : World) (err : Error)
    (h : run env command args w = (.error err, w')) :
    (env.Pipe (afterCommand command args w) = some err ∧
      w'.openFiles = w.openFiles ∧ w'.pipes = w.pipes ∧
      w'.trace = w.trace ++ [.command command args, .pipeFailed]) ∨
    (env.Pipe (afterFirstPipe command args w) = some err ∧
      w'.openFiles = w.openFiles ++ [.pipe w.pipes .read, .pipe w.pipes .write] ∧
      w'.pipes = w.pipes + 1 ∧
      w'.trace = w.trace ++ [.command command args, .pipe w.pipes, .pipeFailed]) ∨
    (env.startForeground (childCmd env command args w) (afterSecondPipe command args w)
        = .error err ∧
      w'.openFiles = w.openFiles ++
        [.pipe w.pipes .read, .pipe w.pipes .write,
         .pipe (w.pipes + 1) .read, .pipe (w.pipes + 1) .write] ∧
      w'.pipes = w.pipes + 2 ∧
      w'.trace = w.trace ++ [.command command args, .pipe w.pipes, .pipe (w.pipes + 1),
        .startForeground (childCmd env command args w)]) := by
  rcases run_error_inv h with ⟨h1, hw⟩ | ⟨_, h2, hw⟩ | ⟨_, _, h3, hw⟩
  · subst hw
    exact Or.inl ⟨h1, rfl, rfl, by simp [afterCommand, World.log]⟩
  · subst hw
    exact Or.inr (Or.inl ⟨h2, rfl, rfl, by simp [afterFirstPipe, World.log]⟩)
  · subst hw
    exact Or.inr (Or.inr ⟨h3, rfl, rfl, by simp [afterStart, afterSecondPipe, World.log]⟩)

/-- An instance of the amended C4: the binary does not exist, and the four pipe
ends that `run` opened are open when it returns. -/
theorem run_error_closes_nothing_witness :
    run Env.startFails "rclone" testArgs World.initial
      = (.error { msg := "cmd.Start: executable file not found" }, World.started) ∧
    World.started.openFiles = World.initial.openFiles ++
      [.pipe 0 .read, .pipe 0 .write, .pipe 1 .read, .pipe 1 .write] :=
  ⟨rfl,
    (run_error_closes_nothing Env.startFails "rclone" testArgs World.initial World.started
      { msg := "cmd.Start: executable file not found" } rfl).elim
      (fun h => absurd h.1 (by decide))
      (fun h => h.elim (fun h => absurd h.1 (by decide)) (fun h => h.2.1))⟩

/-! ## `Close` -/

/-- C5: `Close` closes the idle connections of the transport, then waits for
the child once, and does nothing else; it returns what the wait returned, nil
or the error; it does not kill the child and it leaves the pipes alone. -/
theorem Close_waits_once (env : Env) (be : Backend) (w : World) :
    (be.Close env w).2.trace = w.trace ++ [.closeIdleConnections, .wait be.cmd] ∧
    (be.Close env w).1 = (be.cmd.Wait env (be.tr.CloseIdleConnections w)).1 ∧
    (be.Close env w).1 = env.Wait be.cmd (w.log .closeIdleConnections) ∧
    (env.Wait be.cmd (w.log .closeIdleConnections) = none → (be.Close env w).1 = none) ∧
    (∀ err, env.Wait be.cmd (w.log .closeIdleConnections) = some err →
      (be.Close env w).1 = some err) ∧
    (∀ p, Event.kill p ∉ [Event.closeIdleConnections, Event.wait be.cmd]) ∧
    (be.Close env w).2.openFiles = w.openFiles ∧
    (be.Close env w).2.pipes = w.pipes := by
  refine ⟨?_, rfl, rfl, fun h => ?_, fun err h => ?_, ?_, rfl, rfl⟩
  · simp [Backend.Close, Cmd.Wait, Transport.CloseIdleConnections, World.log]
  · simpa [Backend.Close, Cmd.Wait, Transport.CloseIdleConnections] using h
  · simpa [Backend.Close, Cmd.Wait, Transport.CloseIdleConnections] using h
  · intro p; simp

/-! ## `ParseConfig` -/

theorem rclone_data (r : String) :
    ("rclone:" ++ r).data = ['r', 'c', 'l', 'o', 'n', 'e', ':'] ++ r.data := by
  rw [String.data_append]

theorem HasPrefix_rclone_iff (s : String) :
    HasPrefix s "rclone:" = true ↔ ∃ r : String, s = "rclone:" ++ r := by
  have hlen : "rclone:".length = 7 := by decide
  have hdata : "rclone:".data = ['r', 'c', 'l', 'o', 'n', 'e', ':'] := rfl
  constructor
  · intro h
    simp only [HasPrefix, hlen, hdata, Bool.and_eq_true, decide_eq_true_eq, beq_iff_eq] at h
    refine ⟨String.mk (s.data.drop 7), ?_⟩
    apply String.ext
    rw [rclone_data, ← h.2]
    exact (List.take_append_drop 7 s.data).symm
  · rintro ⟨r, rfl⟩
    simp only [HasPrefix, hlen, Bool.and_eq_true, decide_eq_true_eq, beq_iff_eq, hdata]
    rw [String.length, rclone_data]
    simp

/-- C8: `ParseConfig` returns an error, and then no configuration, exactly for
the strings that do not begin with `rclone:`; on `rclone:` followed by `r` it
returns the default configuration with `Remote` set to `r`, whose `Command` is
empty, whatever `r` is. -/
theorem ParseConfig_spec :
    (∀ s : String, (∃ err, ParseConfig s = .error err) ↔ ¬ ∃ r : String, s = "rclone:" ++ r) ∧
    (∀ r : String, ParseConfig ("rclone:" ++ r) = .ok { NewConfig with Remote := r } ∧
      ParseConfig ("rclone:" ++ r) = .ok { Command := "", Remote := r }) ∧
    ParseConfig "rclone:" = .ok { Command := "", Remote := "" } ∧
    ParseConfig "rclone:rclone:b" = .ok { Command := "", Remote := "rclone:b" } := by
  have key : ∀ r : String, ParseConfig ("rclone:" ++ r) = .ok { Command := "", Remote := r } := by
    intro r
    have hp : HasPrefix ("rclone:" ++ r) "rclone:" = true :=
      (HasPrefix_rclone_iff _).2 ⟨r, rfl⟩
    simp [ParseConfig, hp, NewConfig, rclone_data]
  refine ⟨fun s => ?_, fun r => ⟨key r, key r⟩, key "", key "rclone:b"⟩
  rw [← HasPrefix_rclone_iff]
  by_cases hp : HasPrefix s "rclone:" = true
  · simp [ParseConfig, hp]
  · simp [ParseConfig, hp]

/-! ## `New` -/

theorem resolve_default {env : Env} {cfg : Config} {w : World} (h : cfg.Command = "") :
    resolve env cfg w = (.ok ("rclone", ["serve", "restic", "--stdin", cfg.Remote]), w) := by
  simp [resolve, h]

theorem resolve_custom {env : Env} {cfg : Config} {w : World} (h : cfg.Command ≠ "") :
    resolve env cfg w = (env.SplitShellArgs cfg.Command, w.log (.splitShellArgs cfg.Command)) := by
  simp [resolve, h, SplitShellArgs]

theorem New_resolve_error {env : Env} {cfg : Config} {w w0 : World} {err : Error}
    (hres : resolve env cfg w = (.error err, w0)) :
    New env cfg w = (.error err, w0) := by
  simp [New, hres]

theorem New_run_error {env : Env} {cfg : Config} {w w0 w1 : World} {arg0 : String}
    {args : List String} {err : Error}
    (hres : resolve env cfg w = (.ok (arg0, args), w0))
    (hrun : run env arg0 args w0 = (.error err, w1)) :
    New env cfg w = (.error err, w1) := by
  simp [New, hres, hrun]

theorem New_get_error {env : Env} {cfg : Config} {w w0 w1 : World} {arg0 : String}
    {args : List String} {conn : StdioConn} {cmd : Cmd} {bg : Bg} {err : Error}
    (hres : resolve env cfg w = (.ok (arg0, args), w0))
    (hrun : run env arg0 args w0 = (.ok (conn, cmd, bg), w1))
    (hget : env.Get (newTransport conn) "http://localhost/" w1 = .error err) :
    New env cfg w = (.error err, w1.log (.get "http://localhost/")) := by
  simp [New, hres, hrun, Get, hget]

theorem New_status_error {env : Env} {cfg : Config} {w w0 w1 : World} {arg0 : String}
    {args : List String} {conn : StdioConn} {cmd : Cmd} {bg : Bg} {res : Response}
    {p : Process}
    (hres : resolve env cfg w = (.ok (arg0, args), w0))
    (hrun : run env arg0 args w0 = (.ok (conn, cmd, bg), w1))
    (hget : env.Get (newTransport conn) "http://localhost/" w1 = .ok res)
    (hcode : res.StatusCode ≠ 200) (hp : cmd.Process = some p) :
    New env cfg w = (.error (Errorf res.Status),
      (((w1.log (.get "http://localhost/")).log (.background bg)).log (.kill p))) := by
  simp [New, hres, hrun, Get, hget, StatusOK, hcode, hp, Bg.call, Process.Kill]

/-- The base URL of `New` parses, to `localhost`. -/
theorem Parse_localhost (env : Env) : Parse env "http://localhost/" = .ok localhost := by
  simp [Parse]

/-- The protocol client of `New`, with its pool of 20 connections, opens. -/
theorem restOpen_twenty (env : Env) (url : URL) (tr : Transport) (w : World) :
    restOpen env { Connections := 20, URL := url } tr w
      = (.ok (env.Open { Connections := 20, URL := url } tr w),
          w.log (.restOpen { Connections := 20, URL := url })) := by
  simp [restOpen]

/-- What `New` returns after a handshake that is answered with 200. -/
theorem New_status_ok_eq {env : Env} {cfg : Config} {w w0 w1 : World} {arg0 : String}
    {args : List String} {conn : StdioConn} {cmd : Cmd} {bg : Bg} {res : Response}
    (hres : resolve env cfg w = (.ok (arg0, args), w0))
    (hrun : run env arg0 args w0 = (.ok (conn, cmd, bg), w1))
    (hget : env.Get (newTransport conn) "http://localhost/" w1 = .ok res)
    (hcode : res.StatusCode = 200) :
    New env cfg w =
      (.ok { Backend := env.Open { Connections := 20, URL := localhost } (newTransport conn)
                ((w1.log (.get "http://localhost/")).log (.background bg)),
             tr := newTransport conn, cmd := cmd },
        ((w1.log (.get "http://localhost/")).log (.background bg)).log
          (.restOpen { Connections := 20, URL := localhost })) := by
  simp [New, hres, hrun, Get, hget, StatusOK, hcode, Bg.call, Parse_localhost, restOpen_twenty]

/-- The calls that `New` makes once the command line is resolved: it builds the
resolved command, never splits again, and starts nothing but that command with
its two pipes; it does start it when both pipes can be created. -/
theorem New_trace_after_resolve {env : Env} {cfg : Config} {w w0 : World} {arg0 : String}
    {args : List String} (hres : resolve env cfg w = (.ok (arg0, args), w0)) :
    ∃ rest, (New env cfg w).2.trace = w0.trace ++ Event.command arg0 args :: rest ∧
      (∀ s, Event.splitShellArgs s ∉ rest) ∧
      (∀ c, Event.startForeground c ∈ rest → c = childCmd env arg0 args w0) ∧
      (env.Pipe (afterCommand arg0 args w0) = none →
        env.Pipe (afterFirstPipe arg0 args w0) = none →
        Event.startForeground (childCmd env arg0 args w0) ∈ rest) := by
  rcases run_cases env arg0 args w0 with ⟨err, h1, hr⟩ | ⟨err, h1, h2, hr⟩ |
    ⟨err, h1, h2, h3, hr⟩ | ⟨p, bg, h1, h2, h3, hr⟩
  · refine ⟨[.pipeFailed], ?_, by simp, by simp, ?_⟩
    · rw [New_run_error hres hr]; simp [afterCommand, World.log]
    · intro h; rw [h1] at h; exact absurd h (by simp)
  · refine ⟨[.pipe w0.pipes, .pipeFailed], ?_, by simp, by simp, ?_⟩
    · rw [New_run_error hres hr]; simp [afterFirstPipe, World.log]
    · intro _ h; rw [h2] at h; exact absurd h (by simp)
  · refine ⟨[.pipe w0.pipes, .pipe (w0.pipes + 1),
      .startForeground (childCmd env arg0 args w0)], ?_, by simp, by simp, by simp⟩
    rw [New_run_error hres hr]; simp [afterStart, afterSecondPipe, World.log]
  · cases hget : env.Get (newTransport
        { stdin := .pipe (w0.pipes + 1) .read, stdout := .pipe w0.pipes .write,
          cmd := { childCmd env arg0 args w0 with Process := some p } })
        "http://localhost/" (afterStart env arg0 args w0) with
    | error err =>
      refine ⟨[.pipe w0.pipes, .pipe (w0.pipes + 1),
        .startForeground (childCmd env arg0 args w0),
        .get "http://localhost/"], ?_, by simp, by simp, by simp⟩
      rw [New_get_error hres hr hget]; simp [afterStart, afterSecondPipe, World.log]
    | ok res =>
      by_cases hcode : res.StatusCode = 200
      · refine ⟨[.pipe w0.pipes, .pipe (w0.pipes + 1),
          .startForeground (childCmd env arg0 args w0),
          .get "http://localhost/", .background bg,
          .restOpen { Connections := 20, URL := localhost }], ?_, by simp, by simp, by simp⟩
        rw [New_status_ok_eq hres hr hget hcode]
        simp [afterStart, afterSecondPipe, World.log]
      · refine ⟨[.pipe w0.pipes, .pipe (w0.pipes + 1),
          .startForeground (childCmd env arg0 args w0),
          .get "http://localhost/", .background bg, .kill p], ?_, by simp, by simp, by simp⟩
        rw [New_status_error hres hr hget hcode rfl]
        simp [afterStart, afterSecondPipe, World.log]

theorem resolve_trace {env : Env} {cfg : Config} {w w0 : World}
    {r : Except Error (String × List String)} (hres : resolve env cfg w = (r, w0)) :
    w0.trace = w.trace ++ (if cfg.Command = "" then [] else [.splitShellArgs cfg.Command]) ∧
    w0.pipes = w.pipes ∧ w0.openFiles = w.openFiles := by
  by_cases h : cfg.Command = ""
  · rw [resolve_default h] at hres
    simp only [Prod.mk.injEq] at hres
    obtain ⟨_, hw⟩ := hres
    subst hw
    simp [h]
  · rw [resolve_custom h] at hres
    simp only [Prod.mk.injEq] at hres
    obtain ⟨_, hw⟩ := hres
    subst hw
    simp [h, World.log]

theorem since_of_trace {w w' : World} {evs : List Event} (h : w'.trace = w.trace ++ evs) :
    w'.since w = evs := by
  simp [World.since, h]

/-- The calls of `New` up to a successful start. -/
theorem launch_trace {env : Env} {cfg : Config} {w w0 w1 : World} {arg0 : String}
    {args : List String} {conn : StdioConn} {cmd : Cmd} {bg : Bg}
    (hres : resolve env cfg w = (.ok (arg0, args), w0))
    (hrun : run env arg0 args w0 = (.ok (conn, cmd, bg), w1)) :
    w1.trace = w.trace ++ launchEvents env cfg arg0 args w ∧
    w1.pipes = w.pipes + 2 ∧
    ∃ p, cmd = { childCmd env arg0 args w with Process := some p } := by
  obtain ⟨ht, hp, _⟩ := resolve_trace hres
  obtain ⟨p, _, _, _, hcmd, _, hw⟩ := run_ok_inv hrun
  subst hw
  refine ⟨?_, ?_, p, ?_⟩
  · simp [afterStart, afterSecondPipe, World.log, launchEvents, ht, hp, childCmd]
  · simp [afterStart, afterSecondPipe, World.log, hp]
  · rw [hcmd]; simp [childCmd, hp]

theorem not_mem_launchEvents (env : Env) (cfg : Config) (arg0 : String) (args : List String)
    (w : World) :
    (∀ b, Event.background b ∉ launchEvents env cfg arg0 args w) ∧
    (∀ p, Event.kill p ∉ launchEvents env cfg arg0 args w) ∧
    (∀ c, Event.restOpen c ∉ launchEvents env cfg arg0 args w) ∧
    (∀ u, Event.get u ∉ launchEvents env cfg arg0 args w) := by
  refine ⟨fun b => ?_, fun p => ?_, fun c => ?_, fun u => ?_⟩ <;>
    by_cases h : cfg.Command = "" <;> simp [launchEvents, h]

/-- C1: when the handshake is answered with a status code other than 200,
`New` calls the background callback, then kills the started child, and returns
no backend but the error whose message is
`invalid HTTP response from rclone: ` followed by the status of the response;
these are its last calls, and the protocol client is not opened. -/
theorem New_status_not_ok (env : Env) (cfg : Config) (w w0 w1 : World) (arg0 : String)
    (args : List String) (conn : StdioConn) (cmd : Cmd) (bg : Bg) (res : Response)
    (hres : resolve env cfg w = (.ok (arg0, args), w0))
    (hrun : run env arg0 args w0 = (.ok (conn, cmd, bg), w1))
    (hget : env.Get (newTransport conn) "http://localhost/" w1 = .ok res)
    (hcode : res.StatusCode ≠ 200) :
    ∃ p, cmd.Process = some p ∧
      env.startForeground { cmd with Process := none } (afterSecondPipe arg0 args w0)
        = .ok (p, bg) ∧
      (New env cfg w).1 = .error (Errorf res.Status) ∧
      (Errorf res.Status).msg = "invalid HTTP response from rclone: " ++ res.Status ∧
      (New env cfg w).2.trace
        = w1.trace ++ [.get "http://localhost/", .background bg, .kill p] ∧
      (New env cfg w).2.trace = w.trace ++ (launchEvents env cfg arg0 args w ++
        [.get "http://localhost/", .background bg, .kill p]) ∧
      (∀ c, Event.restOpen c ∉ (New env cfg w).2.since w) := by
  obtain ⟨ht, _, _, _⟩ := launch_trace hres hrun
  obtain ⟨p, _, _, hstart, hcmd, _, _⟩ := run_ok_inv hrun
  have hp : cmd.Process = some p := by rw [hcmd]
  have hstart' : env.startForeground { cmd with Process := none }
      (afterSecondPipe arg0 args w0) = .ok (p, bg) := by
    rw [hcmd]; exact hstart
  have hnew := New_status_error hres hrun hget hcode hp
  have hs : (New env cfg w).2.trace = w.trace ++ (launchEvents env cfg arg0 args w ++
      [.get "http://localhost/", .background bg, .kill p]) := by
    rw [hnew]; simp [World.log, ht]
  refine ⟨p, hp, hstart', by rw [hnew], rfl, ?_, hs, ?_⟩
  · rw [hnew]; simp [World.log]
  · intro c hc
    rw [since_of_trace hs, List.mem_append] at hc
    rcases hc with hc | hc
    · exact (not_mem_launchEvents env cfg arg0 args w).2.2.1 c hc
    · simp at hc

/-- An instance of C1: the child answers `503 Service Unavailable`, and the
message of the error contains `503`. -/
theorem New_status_not_ok_witness :
    resolve (Env.answering 503 "503 Service Unavailable") Config.test World.initial
      = (.ok ("rclone", testArgs), World.initial) ∧
    run (Env.answering 503 "503 Service Unavailable") "rclone" testArgs World.initial
      = (.ok (StdioConn.test, Cmd.test, Bg.test), World.started) ∧
    ∃ p, Cmd.test.Process = some p ∧
      (Env.answering 503 "503 Service Unavailable").startForeground
        { Cmd.test with Process := none } (afterSecondPipe "rclone" testArgs World.initial)
        = .ok (p, Bg.test) ∧
      (New (Env.answering 503 "503 Service Unavailable") Config.test World.initial).1
        = .error (Errorf "503 Service Unavailable") ∧
      (Errorf "503 Service Unavailable").msg
        = "invalid HTTP response from rclone: " ++ "503 Service Unavailable" ∧
      (New (Env.answering 503 "503 Service Unavailable") Config.test World.initial).2.trace
        = World.started.trace ++ [.get "http://localhost/", .background Bg.test, .kill p] ∧
      (New (Env.answering 503 "503 Service Unavailable") Config.test World.initial).2.trace
        = World.initial.trace ++
          (launchEvents (Env.answering 503 "503 Service Unavailable") Config.test "rclone"
              testArgs World.initial ++
            [.get "http://localhost/", .background Bg.test, .kill p]) ∧
      (∀ c, Event.restOpen c ∉
        (New (Env.answering 503 "503 Service Unavailable") Config.test World.initial).2.since
          World.initial) :=
  ⟨rfl, rfl, New_status_not_ok (Env.answering 503 "503 Service Unavailable") Config.test
    World.initial World.initial World.started "rclone" testArgs StdioConn.test Cmd.test Bg.test
    { StatusCode := 503, Status := "503 Service Unavailable" } rfl rfl rfl (by decide)⟩

/-- C6: when the handshake request fails without a response, `New` returns no
backend but the error of the request, unchanged; the request is its last call:
it calls neither the background callback nor kill, and it does not open the
protocol client. -/
theorem New_transport_error (env : Env) (cfg : Config) (w w0 w1 : World) (arg0 : String)
    (args : List String) (conn : StdioConn) (cmd : Cmd) (bg : Bg) (err : Error)
    (hres : resolve env cfg w = (.ok (arg0, args), w0))
    (hrun : run env arg0 args w0 = (.ok (conn, cmd, bg), w1))
    (hget : env.Get (newTransport conn) "http://localhost/" w1 = .error err) :
    (New env cfg w).1 = .error err ∧
    (New env cfg w).2.trace = w1.trace ++ [.get "http://localhost/"] ∧
    (New env cfg w).2.trace
      = w.trace ++ (launchEvents env cfg arg0 args w ++ [.get "http://localhost/"]) ∧
    (∀ b, Event.background b ∉ (New env cfg w).2.since w) ∧
    (∀ p, Event.kill p ∉ (New env cfg w).2.since w) ∧
    (∀ c, Event.restOpen c ∉ (New env cfg w).2.since w) := by
  obtain ⟨ht, _, _⟩ := launch_trace hres hrun
  have hnew := New_get_error hres hrun hget
  have hs : (New env cfg w).2.trace
      = w.trace ++ (launchEvents env cfg arg0 args w ++ [.get "http://localhost/"]) := by
    rw [hnew]; simp [World.log, ht]
  obtain ⟨hb, hk, ho, _⟩ := not_mem_launchEvents env cfg arg0 args w
  refine ⟨by rw [hnew], ?_, hs, fun b hm => ?_, fun p hm => ?_, fun c hm => ?_⟩
  · rw [hnew]; simp [World.log]
  · rw [since_of_trace hs, List.mem_append] at hm
    rcases hm with hm | hm
    · exact hb b hm
    · simp at hm
  · rw [since_of_trace hs, List.mem_append] at hm
    rcases hm with hm | hm
    · exact hk p hm
    · simp at hm
  · rw [since_of_trace hs, List.mem_append] at hm
    rcases hm with hm | hm
    · exact ho c hm
    · simp at hm

/-- An instance of C6: the connection is reset during the handshake. -/
theorem New_transport_error_witness :
    resolve Env.getFails Config.test World.initial
      = (.ok ("rclone", testArgs), World.initial) ∧
    run Env.getFails "rclone" testArgs World.initial
      = (.ok (StdioConn.test, Cmd.test, Bg.test), World.started) ∧
    Env.getFails.Get (newTransport StdioConn.test) "http://localhost/" World.started
      = .error { msg := "connection reset" } ∧
    (New Env.getFails Config.test World.initial).1 = .error { msg := "connection reset" } ∧
    (New Env.getFails Config.test World.initial).2.trace
      = World.started.trace ++ [.get "http://localhost/"] ∧
    (New Env.getFails Config.test World.initial).2.trace
      = World.initial.trace ++
        (launchEvents Env.getFails Config.test "rclone" testArgs World.initial ++
          [.get "http://localhost/"]) ∧
    (∀ b, Event.background b ∉ (New Env.getFails Config.test World.initial).2.since
      World.initial) ∧
    (∀ p, Event.kill p ∉ (New Env.getFails Config.test World.initial).2.since World.initial) ∧
    (∀ c, Event.restOpen c ∉ (New Env.getFails Config.test World.initial).2.since
      World.initial) :=
  ⟨rfl, rfl, rfl, New_transport_error Env.getFails Config.test World.initial World.initial
    World.started "rclone" testArgs StdioConn.test Cmd.test Bg.test
    { msg := "connection reset" } rfl rfl rfl⟩

/-- C2: when the child is launched and answers the handshake with 200, `New`
calls the background callback exactly once, does not kill the child, and
returns a backend and no error.  The backend holds the transport that the
handshake used and the command of the started child with its process handle,
and its protocol client is the one that `rest.Open` constructed over this
transport for the URL parsed from `http://localhost/` and a pool of 20
connections. -/
theorem New_status_ok (env : Env) (cfg : Config) (w w0 w1 : World) (arg0 : String)
    (args : List String) (conn : StdioConn) (cmd : Cmd) (bg : Bg) (res : Response)
    (hres : resolve env cfg w = (.ok (arg0, args), w0))
    (hrun : run env arg0 args w0 = (.ok (conn, cmd, bg), w1))
    (hget : env.Get (newTransport conn) "http://localhost/" w1 = .ok res)
    (hcode : res.StatusCode = 200) :
    ∃ be w', New env cfg w = (.ok be, w') ∧
      be.tr = newTransport conn ∧ be.cmd = cmd ∧
      (∃ p, be.cmd.Process = some p ∧
        env.startForeground { cmd with Process := none } (afterSecondPipe arg0 args w0)
          = .ok (p, bg)) ∧
      env.Get be.tr "http://localhost/" w1 = .ok res ∧
      Parse env "http://localhost/" = .ok localhost ∧
      restOpen env { Connections := 20, URL := localhost } be.tr
        ((w1.log (.get "http://localhost/")).log (.background bg)) = (.ok be.Backend, w') ∧
      w'.trace = w1.trace ++ [.get "http://localhost/", .background bg,
        .restOpen { Connections := 20, URL := localhost }] ∧
      w'.trace = w.trace ++ (launchEvents env cfg arg0 args w ++
        [.get "http://localhost/", .background bg,
         .restOpen { Connections := 20, URL := localhost }]) ∧
      (∀ b, ((w'.since w).filter (fun e => decide (e = .background b))).length
        = if b = bg then 1 else 0) ∧
      (∀ p, Event.kill p ∉ w'.since w) := by
  obtain ⟨ht, _, _, _⟩ := launch_trace hres hrun
  obtain ⟨p, _, _, hstart, hcmd, _, _⟩ := run_ok_inv hrun
  have hp : cmd.Process = some p := by rw [hcmd]
  have hstart' : env.startForeground { cmd with Process := none }
      (afterSecondPipe arg0 args w0) = .ok (p, bg) := by
    rw [hcmd]; exact hstart
  have hnew := New_status_ok_eq hres hrun hget hcode
  have htr : (((w1.log (.get "http://localhost/")).log (.background bg)).log
      (.restOpen { Connections := 20, URL := localhost })).trace
      = w.trace ++ (launchEvents env cfg arg0 args w ++
        [.get "http://localhost/", .background bg,
         .restOpen { Connections := 20, URL := localhost }]) := by
    simp [World.log, ht]
  obtain ⟨hb, hk, _, _⟩ := not_mem_launchEvents env cfg arg0 args w
  refine ⟨_, _, hnew, rfl, rfl, ⟨p, hp, hstart'⟩, hget, Parse_localhost env,
    restOpen_twenty env localhost _ _, by simp [World.log], htr, fun b => ?_, fun q hm => ?_⟩
  · rw [since_of_trace htr, List.filter_append]
    have h0 : (launchEvents env cfg arg0 args w).filter (fun e => decide (e = .background b))
        = [] := by
      rw [List.filter_eq_nil_iff]
      intro e he hd
      simp only [decide_eq_true_eq] at hd
      exact hb b (hd ▸ he)
    rw [h0]
    by_cases hbb : b = bg
    · subst hbb; simp [List.filter]
    · have hne : ¬ bg = b := fun h => hbb h.symm
      simp [List.filter, hbb, hne]
  · rw [since_of_trace htr, List.mem_append] at hm
    rcases hm with hm | hm
    · exact hk q hm
    · simp at hm

/-- An instance of C2: the configuration of the test suite in the environment
where every call succeeds. -/
theorem New_status_ok_witness :
    resolve Env.healthy Config.test World.initial = (.ok ("rclone", testArgs), World.initial) ∧
    run Env.healthy "rclone" testArgs World.initial
      = (.ok (StdioConn.test, Cmd.test, Bg.test), World.started) ∧
    Env.healthy.Get (newTransport StdioConn.test) "http://localhost/" World.started
      = .ok { StatusCode := 200, Status := "200 OK" } ∧
    (∃ be w', New Env.healthy Config.test World.initial = (.ok be, w') ∧
      be.tr = newTransport StdioConn.test ∧ be.cmd = Cmd.test ∧
      restOpen Env.healthy { Connections := 20, URL := localhost } be.tr
        ((World.started.log (.get "http://localhost/")).log (.background Bg.test))
        = (.ok be.Backend, w') ∧
      w'.trace = World.started.trace ++ [.get "http://localhost/", .background Bg.test,
        .restOpen { Connections := 20, URL := localhost }] ∧
      (∀ p, Event.kill p ∉ w'.since World.initial)) :=
  ⟨rfl, rfl, rfl,
    let ⟨be, w', h, h1, h2, _, _, _, h3, h4, _, _, h5⟩ :=
      New_status_ok Env.healthy Config.test World.initial World.initial World.started "rclone"
        testArgs StdioConn.test Cmd.test Bg.test { StatusCode := 200, Status := "200 OK" }
        rfl rfl rfl rfl
    ⟨be, w', h, h1, h2, h3, h4, h5⟩⟩

/-- C3: with an empty `Command`, `New` resolves the command line to `rclone`
with the four arguments `serve`, `restic`, `--stdin` and the remote, the remote
as it is, without a call to the splitter; this is the command it builds first,
every command it starts has exactly this command line, and it starts one when
both pipes can be created. -/
theorem New_default_command (env : Env) (cfg : Config) (w : World) (h : cfg.Command = "") :
    resolve env cfg w = (.ok ("rclone", ["serve", "restic", "--stdin", cfg.Remote]), w) ∧
    ∃ rest, (New env cfg w).2.trace
        = w.trace ++ Event.command "rclone" ["serve", "restic", "--stdin", cfg.Remote] :: rest ∧
      (∀ s, Event.splitShellArgs s ∉ rest) ∧
      (∀ c, Event.startForeground c ∈ rest →
        c.Args = ["rclone", "serve", "restic", "--stdin", cfg.Remote] ∧
        c.Path = env.Path "rclone") ∧
      (env.Pipe (afterCommand "rclone" ["serve", "restic", "--stdin", cfg.Remote] w) = none →
        env.Pipe (afterFirstPipe "rclone" ["serve", "restic", "--stdin", cfg.Remote] w)
          = none →
        ∃ c, Event.startForeground c ∈ rest ∧
          c.Args = ["rclone", "serve", "restic", "--stdin", cfg.Remote]) := by
  have hres : resolve env cfg w
      = (.ok ("rclone", ["serve", "restic", "--stdin", cfg.Remote]), w) := resolve_default h
  obtain ⟨rest, ht, hs, hc, hst⟩ := New_trace_after_resolve hres
  refine ⟨hres, rest, ht, hs, fun c hm => ?_, fun h1 h2 => ⟨_, hst h1 h2, rfl⟩⟩
  rw [hc c hm]
  exact ⟨rfl, rfl⟩

/-- An instance of C3: the configuration of the test suite. -/
theorem New_default_command_witness :
    Config.test.Command = "" ∧
    resolve Env.healthy Config.test World.initial
      = (.ok ("rclone", ["serve", "restic", "--stdin", "local:/tmp/x"]), World.initial) ∧
    ∃ rest, (New Env.healthy Config.test World.initial).2.trace
        = World.initial.trace ++
          Event.command "rclone" ["serve", "restic", "--stdin", "local:/tmp/x"] :: rest ∧
      (∀ s, Event.splitShellArgs s ∉ rest) ∧
      (∀ c, Event.startForeground c ∈ rest →
        c.Args = ["rclone", "serve", "restic", "--stdin", "local:/tmp/x"] ∧
        c.Path = Env.healthy.Path "rclone") ∧
      (Env.healthy.Pipe
          (afterCommand "rclone" ["serve", "restic", "--stdin", "local:/tmp/x"] World.initial)
          = none →
        Env.healthy.Pipe
          (afterFirstPipe "rclone" ["serve", "restic", "--stdin", "local:/tmp/x"] World.initial)
          = none →
        ∃ c, Event.startForeground c ∈ rest ∧
          c.Args = ["rclone", "serve", "restic", "--stdin", "local:/tmp/x"]) :=
  ⟨rfl, New_default_command Env.healthy Config.test World.initial rfl⟩

/-- C7: with a non-empty `Command`, `New` calls the splitter on it.  When the
splitter rejects it, `New` returns the error of the splitter and no backend,
and this call is its only call: no pipe is created and nothing is started.
When the splitter accepts it, `New` builds the command that the splitter
returned, every command it starts has exactly the command line that the
splitter returned, and it starts one when both pipes can be created.  In both
cases the remote has no influence on what `New` does. -/
theorem New_custom_command (env : Env) (cfg : Config) (w : World) (h : cfg.Command ≠ "") :
    (∀ err, env.SplitShellArgs cfg.Command = .error err →
      (New env cfg w).1 = .error err ∧
      (New env cfg w).2.trace = w.trace ++ [.splitShellArgs cfg.Command] ∧
      (New env cfg w).2.pipes = w.pipes ∧
      (New env cfg w).2.openFiles = w.openFiles) ∧
    (∀ arg0 args, env.SplitShellArgs cfg.Command = .ok (arg0, args) →
      ∃ rest, (New env cfg w).2.trace
          = w.trace ++ Event.splitShellArgs cfg.Command :: Event.command arg0 args :: rest ∧
        (∀ s, Event.splitShellArgs s ∉ rest) ∧
        (∀ c, Event.startForeground c ∈ rest →
          c.Args = arg0 :: args ∧ c.Path = env.Path arg0) ∧
        (env.Pipe (afterCommand arg0 args (w.log (.splitShellArgs cfg.Command))) = none →
          env.Pipe (afterFirstPipe arg0 args (w.log (.splitShellArgs cfg.Command))) = none →
          ∃ c, Event.startForeground c ∈ rest ∧ c.Args = arg0 :: args)) ∧
    (∀ remote, New env { cfg with Remote := remote } w = New env cfg w) := by
  refine ⟨fun err he => ?_, fun arg0 args he => ?_, fun remote => ?_⟩
  · have hres : resolve env cfg w = (.error err, w.log (.splitShellArgs cfg.Command)) := by
      rw [resolve_custom h, he]
    rw [New_resolve_error hres]
    exact ⟨rfl, rfl, rfl, rfl⟩
  · have hres : resolve env cfg w
        = (.ok (arg0, args), w.log (.splitShellArgs cfg.Command)) := by
      rw [resolve_custom h, he]
    obtain ⟨rest, ht, hs, hc, hst⟩ := New_trace_after_resolve hres
    refine ⟨rest, ?_, hs, fun c hm => ?_, fun h1 h2 => ⟨_, hst h1 h2, rfl⟩⟩
    · rw [ht]; simp [World.log]
    · rw [hc c hm]
      exact ⟨rfl, rfl⟩
  · have hc : ({ cfg with Remote := remote } : Config).Command ≠ "" := h
    have hr : resolve env { cfg with Remote := remote } w = resolve env cfg w := by
      rw [resolve_custom h, resolve_custom hc]
    simp only [New, hr]

/-- An instance of C7: a command line that the splitter accepts. -/
theorem New_custom_command_witness :
    Config.custom.Command ≠ "" ∧
    (∃ rest, (New Env.healthy Config.custom World.initial).2.trace
        = World.initial.trace ++ Event.splitShellArgs "ssh host rclone serve restic --stdin" ::
          Event.command "ssh" ["host", "rclone", "serve", "restic", "--stdin"] :: rest ∧
      (∀ c, Event.startForeground c ∈ rest →
        c.Args = ["ssh", "host", "rclone", "serve", "restic", "--stdin"] ∧
        c.Path = Env.healthy.Path "ssh")) ∧
    (∀ remote, New Env.healthy { Config.custom with Remote := remote } World.initial
      = New Env.healthy Config.custom World.initial) :=
  have hne : Config.custom.Command ≠ "" := by decide
  have h := New_custom_command Env.healthy Config.custom World.initial hne
  ⟨hne,
    let ⟨rest, ht, _, hc, _⟩ :=
      h.2.1 "ssh" ["host", "rclone", "serve", "restic", "--stdin"] rfl
    ⟨rest, ht, hc⟩,
    h.2.2⟩

theorem dialAll_newTransport (conn : StdioConn)
    (calls : List (String × String × Option TLSConfig)) (w : World) :
    (dialAll (newTransport conn) calls w).1 = calls.map (fun _ => Except.ok conn) ∧
    (dialAll (newTransport conn) calls w).2.trace
      = w.trace ++ calls.map (fun c => Event.debugLog c.1 c.2.1) ∧
    (dialAll (newTransport conn) calls w).2.pipes = w.pipes ∧
    (dialAll (newTransport conn) calls w).2.openFiles = w.openFiles := by
  induction calls generalizing w with
  | nil => simp [dialAll]
  | cons c calls ih =>
    obtain ⟨network, address, cfg⟩ := c
    obtain ⟨h1, h2, h3, h4⟩ := ih (w.log (.debugLog network address))
    have hstep : dialAll (newTransport conn) ((network, address, cfg) :: calls) w
        = (.ok conn :: (dialAll (newTransport conn) calls
              (w.log (.debugLog network address))).1,
            (dialAll (newTransport conn) calls (w.log (.debugLog network address))).2) := rfl
    rw [hstep]
    refine ⟨?_, ?_, ?_, ?_⟩
    · simp [h1]
    · show (dialAll _ calls (w.log _)).2.trace = _
      rw [h2]; simp [World.log]
    · show (dialAll _ calls (w.log _)).2.pipes = _
      rw [h3]; rfl
    · show (dialAll _ calls (w.log _)).2.openFiles = _
      rw [h4]; rfl

/-- C9: when the child is launched and answers the handshake with 200, `New`
returns a backend whose transport is the one the handshake went through; this
transport allows plain HTTP, and its dial hook returns the connection of the
launcher and a nil error for every network, address and TLS configuration, in
every world and in every series of calls; a call creates no pipe and opens no
file, it only writes its debug message. -/
theorem New_dial_hook (env : Env) (cfg : Config) (w w0 w1 : World) (arg0 : String)
    (args : List String) (conn : StdioConn) (cmd : Cmd) (bg : Bg) (res : Response)
    (hres : resolve env cfg w = (.ok (arg0, args), w0))
    (hrun : run env arg0 args w0 = (.ok (conn, cmd, bg), w1))
    (hget : env.Get (newTransport conn) "http://localhost/" w1 = .ok res)
    (hcode : res.StatusCode = 200) :
    ∃ be w', New env cfg w = (.ok be, w') ∧
      env.Get be.tr "http://localhost/" w1 = .ok res ∧
      be.tr.AllowHTTP = true ∧
      (∀ network address tls wd,
        be.tr.DialTLS network address tls wd
          = (.ok conn, wd.log (.debugLog network address))) ∧
      (∀ calls wd,
        (dialAll be.tr calls wd).1 = calls.map (fun _ => Except.ok conn) ∧
        (dialAll be.tr calls wd).2.trace
          = wd.trace ++ calls.map (fun c => Event.debugLog c.1 c.2.1) ∧
        (dialAll be.tr calls wd).2.pipes = wd.pipes ∧
        (dialAll be.tr calls wd).2.openFiles = wd.openFiles) :=
  ⟨_, _, New_status_ok_eq hres hrun hget hcode, hget, rfl, fun _ _ _ _ => rfl,
    fun calls wd => dialAll_newTransport conn calls wd⟩

/-- An instance of C9: the backend that `New` returns for the test suite; its
dial hook is called for two different addresses and returns the connection of
the launcher both times. -/
theorem New_dial_hook_witness :
    resolve Env.healthy Config.test World.initial = (.ok ("rclone", testArgs), World.initial) ∧
    run Env.healthy "rclone" testArgs World.initial
      = (.ok (StdioConn.test, Cmd.test, Bg.test), World.started) ∧
    ∃ be w', New Env.healthy Config.test World.initial = (.ok be, w') ∧
      be.tr.AllowHTTP = true ∧
      (dialAll be.tr
          [("tcp", "localhost:80", none),
           ("udp", "example.org:443", some { ServerName := "example.org",
                                             InsecureSkipVerify := false })]
          World.started).1 = [.ok StdioConn.test, .ok StdioConn.test] ∧
      (dialAll be.tr
          [("tcp", "localhost:80", none),
           ("udp", "example.org:443", some { ServerName := "example.org",
                                             InsecureSkipVerify := false })]
          World.started).2.openFiles = World.started.openFiles :=
  ⟨rfl, rfl,
    let ⟨be, w', h, _, h1, _, h2⟩ :=
      New_dial_hook Env.healthy Config.test World.initial World.initial World.started
        "rclone" testArgs StdioConn.test Cmd.test Bg.test
        { StatusCode := 200, Status := "200 OK" } rfl rfl rfl rfl
    ⟨be, w', h, h1, (h2 _ _).1, (h2 _ _).2.2.2⟩⟩

end Rclone
